import Mathlib

/-!
# Verification of the ArborChat icon build scripts

A shallow embedding of the four Python build scripts of the ArborChat
repository (`add_icon_padding.py`, `generate_themed_icons.py`,
`prepare_and_generate_icons.py`, `generate-icon.py`), together with proofs of
the testable properties of their specification.

Images are modelled as a width, a height and a total per-pixel RGBA function;
machine `uint8` channel values are modelled as `Nat` (all channel arithmetic
in the scripts is comparison and copying, so no overflow is involved).
-/

/-- One RGBA pixel: four `uint8` channels modelled as `Nat`. -/
structure RGBA where
  r : Nat
  g : Nat
  b : Nat
  a : Nat
deriving DecidableEq, Repr

/-- A raster image: pixel width, pixel height and a total pixel function
(the attributes of an icon asset in the data model). -/
structure Img where
  width : Nat
  height : Nat
  pix : Nat → Nat → RGBA

/-- PIL's fixed-point `MULDIV255` macro: `tmp = a*b + 128; ((tmp >> 8) + tmp) >> 8`,
the exact integer form of `a*b/255` used by `Image.paste` blending. -/
def muldiv255 (x y : Nat) : Nat :=
  let t := x * y + 128
  (t / 256 + t) / 256

/-- PIL's per-channel blend for a paste under a mask with alpha `m`:
`dst` weighted by `255 - m` plus `src` weighted by `m`. -/
def blendChannel (d s m : Nat) : Nat :=
  muldiv255 d (255 - m) + muldiv255 s m

/-- `Image.new('RGBA', (w, h), c)`: a `w × h` image uniformly filled with `c`. -/
def Image.new (w h : Nat) (c : RGBA) : Img :=
  { width := w, height := h, pix := fun _ _ => c }

/-- Modelled from the spec: `PIL.Image.resize` with the LANCZOS filter is
imaging-library code not present in this repository.  The specification relies
only on the resampler returning an image of exactly the requested dimensions
whose content is resampled from the source ("resample ... using a high-quality
resampling filter"), so the pixel sampling is modelled as nearest-neighbour;
the output dimensions are exactly `(w, h)` as in PIL. -/
def Image.resize (img : Img) (w h : Nat) : Img :=
  { width := w, height := h,
    pix := fun x y => img.pix (x * img.width / w) (y * img.height / h) }

/-- `dst.paste(src, (ox, oy), mask)` for RGBA images with an RGBA mask, as in
PIL: inside the pasted box every channel of `dst` is blended with `src` under
the mask's alpha band (`255` copies `src`, `0` keeps `dst`); outside the box
`dst` is untouched. -/
def Image.paste (dst src : Img) (ox oy : Nat) (mask : Img) : Img :=
  { width := dst.width, height := dst.height,
    pix := fun x y =>
      if ox ≤ x ∧ x < ox + src.width ∧ oy ≤ y ∧ y < oy + src.height then
        let s := src.pix (x - ox) (y - oy)
        let d := dst.pix x y
        let m := (mask.pix (x - ox) (y - oy)).a
        ⟨blendChannel d.r s.r m, blendChannel d.g s.g m,
         blendChannel d.b s.b m, blendChannel d.a s.a m⟩
      else dst.pix x y }

/-! ## `build/add_icon_padding.py` — the Padding Normalizer -/

/-- `CONTENT_RATIO = 0.84`: the fraction of the canvas the content should
occupy, kept as the exact rational `84 / 100`.  For every canvas size used
(and in fact every size whose product with `0.84` is not within floating-point
noise of an integer, which holds for all `Nat` sizes since the fractional part
of `S * 84 / 100` is a multiple of `1/25`), `int(canvas_size * 0.84)` in
Python equals `canvas_size * 84 / 100` in `Nat` arithmetic. -/
def contentSizeOf (canvas_size : Nat) : Nat := canvas_size * 84 / 100

/-- `add_padding_to_icon(source, target, canvas_size)`: resize the source to
`int(canvas_size * CONTENT_RATIO)` square, create a fully transparent
`canvas_size × canvas_size` canvas, and paste the resized content centered at
offset `(canvas_size - content_size) // 2`, using the resized image itself as
the paste mask. -/
def add_padding_to_icon (canvas_size : Nat) (img : Img) : Img :=
  let content_size := contentSizeOf canvas_size
  let resized := Image.resize img content_size content_size
  let canvas := Image.new canvas_size canvas_size ⟨0, 0, 0, 0⟩
  let offset := (canvas_size - content_size) / 2
  Image.paste canvas resized offset offset resized

theorem contentSize_le (S : Nat) : contentSizeOf S ≤ S := by
  unfold contentSizeOf
  calc S * 84 / 100 ≤ S * 100 / 100 :=
        Nat.div_le_div_right (Nat.mul_le_mul_left S (by norm_num))
    _ = S := Nat.mul_div_cancel S (by norm_num)

theorem blendChannel_mask_zero (d s : Nat) (hd : d ≤ 255) :
    blendChannel d s 0 = d := by
  unfold blendChannel muldiv255
  simp only [Nat.sub_zero, Nat.mul_zero, Nat.zero_add]
  interval_cases d <;> rfl

theorem blendChannel_mask_full (d s : Nat) (hs : s ≤ 255) :
    blendChannel d s 255 = s := by
  unfold blendChannel muldiv255
  simp only [Nat.sub_self, Nat.mul_zero, Nat.zero_add]
  interval_cases s <;> rfl

theorem paste_pix_outside (dst src mask : Img) (ox oy x y : Nat)
    (h : ¬(ox ≤ x ∧ x < ox + src.width ∧ oy ≤ y ∧ y < oy + src.height)) :
    (Image.paste dst src ox oy mask).pix x y = dst.pix x y := by
  simp only [Image.paste, if_neg h]

theorem paste_pix_inside (dst src mask : Img) (ox oy x y : Nat)
    (h : ox ≤ x ∧ x < ox + src.width ∧ oy ≤ y ∧ y < oy + src.height) :
    (Image.paste dst src ox oy mask).pix x y =
      ⟨blendChannel (dst.pix x y).r (src.pix (x - ox) (y - oy)).r ((mask.pix (x - ox) (y - oy)).a),
       blendChannel (dst.pix x y).g (src.pix (x - ox) (y - oy)).g ((mask.pix (x - ox) (y - oy)).a),
       blendChannel (dst.pix x y).b (src.pix (x - ox) (y - oy)).b ((mask.pix (x - ox) (y - oy)).a),
       blendChannel (dst.pix x y).a (src.pix (x - ox) (y - oy)).a ((mask.pix (x - ox) (y - oy)).a)⟩ := by
  simp only [Image.paste, if_pos h]

/-- **C1.** Applying the padding transform once to any input image with a
canvas size `S` produces an `S × S` output; every pixel outside the centered
`contentSizeOf S × contentSizeOf S` square at offset `(S - contentSizeOf S)/2`
is fully transparent `(0,0,0,0)`; inside the square, wherever the resized
content is fully opaque, the output pixel is exactly the resized content
pixel; and for `S = 128` the content size is `107` at offset `10`. -/
theorem padding_once_geometry (S : Nat) (img : Img)
    (hb : ∀ x y, (img.pix x y).r ≤ 255 ∧ (img.pix x y).g ≤ 255 ∧
                 (img.pix x y).b ≤ 255 ∧ (img.pix x y).a ≤ 255) :
    (add_padding_to_icon S img).width = S ∧
    (add_padding_to_icon S img).height = S ∧
    (∀ x y,
      (x < (S - contentSizeOf S) / 2 ∨ (S - contentSizeOf S) / 2 + contentSizeOf S ≤ x ∨
       y < (S - contentSizeOf S) / 2 ∨ (S - contentSizeOf S) / 2 + contentSizeOf S ≤ y) →
      (add_padding_to_icon S img).pix x y = ⟨0, 0, 0, 0⟩) ∧
    (∀ x y, x < contentSizeOf S → y < contentSizeOf S →
      ((Image.resize img (contentSizeOf S) (contentSizeOf S)).pix x y).a = 255 →
      (add_padding_to_icon S img).pix ((S - contentSizeOf S) / 2 + x) ((S - contentSizeOf S) / 2 + y)
        = (Image.resize img (contentSizeOf S) (contentSizeOf S)).pix x y) ∧
    contentSizeOf 128 = 107 ∧ (128 - contentSizeOf 128) / 2 = 10 := by
  refine ⟨rfl, rfl, ?_, ?_, by norm_num [contentSizeOf], by norm_num [contentSizeOf]⟩
  · intro x y h
    unfold add_padding_to_icon
    rw [paste_pix_outside]
    · rfl
    · simp only [Image.resize]
      omega
  · intro x y hx hy ha
    unfold add_padding_to_icon
    rw [paste_pix_inside]
    · simp only [Image.new, Image.resize, Nat.add_sub_cancel_left] at *
      rw [ha]
      obtain ⟨hr, hg, hbl, _⟩ := hb (x * img.width / contentSizeOf S) (y * img.height / contentSizeOf S)
      rw [blendChannel_mask_full _ _ hr, blendChannel_mask_full _ _ hg,
          blendChannel_mask_full _ _ hbl]
      have : blendChannel (RGBA.mk 0 0 0 0).a 255 255 = 255 := by decide
      simp only [this]
      rw [← ha]
    · simp only [Image.resize]
      omega

/-- A concrete fully opaque white test image. -/
def whiteImg : Img := Image.new 4 4 ⟨255, 255, 255, 255⟩

/-- Witness for C1 at `S = 128` on a concrete opaque white image: the border
pixel `(5, 60)` is fully transparent and the content pixel `(13, 14)` is the
(white) resized content pixel. -/
theorem padding_once_geometry_witness :
    (add_padding_to_icon 128 whiteImg).pix 5 60 = ⟨0, 0, 0, 0⟩ ∧
    (add_padding_to_icon 128 whiteImg).pix (10 + 3) (10 + 4) = ⟨255, 255, 255, 255⟩ := by
  have h := padding_once_geometry 128 whiteImg (fun x y => by
    refine ⟨?_, ?_, ?_, ?_⟩ <;> simp [whiteImg, Image.new])
  refine ⟨h.2.2.1 5 60 ?_, ?_⟩
  · norm_num [contentSizeOf]
  · have h2 := h.2.2.2.1 3 4 (by norm_num [contentSizeOf]) (by norm_num [contentSizeOf])
      (by simp [Image.resize, whiteImg, Image.new])
    simpa [contentSizeOf, Image.resize, whiteImg, Image.new] using h2

/-- **C3.** The padding transform is not idempotent: starting from a concrete
opaque white icon, one application makes pixel `(1,1)` of the `10 × 10`
canvas fully opaque content, but a second application resamples the whole
once-padded canvas (transparent border included) down to the content size
again, leaving pixel `(1,1)` fully transparent — the two results differ, and
no guard in `add_padding_to_icon` detects an already-padded input. -/
theorem padding_not_idempotent :
    (add_padding_to_icon 10 whiteImg).pix 1 1 = ⟨255, 255, 255, 255⟩ ∧
    (add_padding_to_icon 10 (add_padding_to_icon 10 whiteImg)).pix 1 1 = ⟨0, 0, 0, 0⟩ ∧
    add_padding_to_icon 10 (add_padding_to_icon 10 whiteImg) ≠ add_padding_to_icon 10 whiteImg := by
  refine ⟨by decide, by decide, fun h => ?_⟩
  have h11 := congrArg (fun i => i.pix 1 1) h
  simp only at h11
  exact absurd h11 (by decide)

/-- **C10.** The padding transform is total on images of arbitrary (including
non-square) dimensions: for every width `w`, height `h`, pixel function and
canvas size `S` it produces an `S × S` output, the content is resampled to a
square `contentSizeOf S × contentSizeOf S` region, and the resampling scales
the horizontal axis by `w` and the vertical axis by `h` independently —
silently discarding the input's aspect ratio rather than rejecting or
letterboxing a non-square input. -/
theorem padding_accepts_any_dimensions (w h : Nat) (pixf : Nat → Nat → RGBA) (S : Nat) :
    (add_padding_to_icon S ⟨w, h, pixf⟩).width = S ∧
    (add_padding_to_icon S ⟨w, h, pixf⟩).height = S ∧
    (Image.resize ⟨w, h, pixf⟩ (contentSizeOf S) (contentSizeOf S)).width
      = (Image.resize ⟨w, h, pixf⟩ (contentSizeOf S) (contentSizeOf S)).height ∧
    (∀ x y, (Image.resize ⟨w, h, pixf⟩ (contentSizeOf S) (contentSizeOf S)).pix x y
      = pixf (x * w / contentSizeOf S) (y * h / contentSizeOf S)) :=
  ⟨rfl, rfl, rfl, fun _ _ => rfl⟩

/-! ## `build/generate_themed_icons.py` — the Theme Recolorer -/

/-- Value of one hexadecimal digit; `none` on a non-hex character (where
Python's `int(..., 16)` raises `ValueError`). -/
def hexDigitVal (c : Char) : Option Nat :=
  if '0' ≤ c ∧ c ≤ '9' then some (c.toNat - '0'.toNat)
  else if 'a' ≤ c ∧ c ≤ 'f' then some (c.toNat - 'a'.toNat + 10)
  else if 'A' ≤ c ∧ c ≤ 'F' then some (c.toNat - 'A'.toNat + 10)
  else none

/-- A two-digit hexadecimal component `int(s[i:i+2], 16)`. -/
def hexPair (c1 c2 : Char) : Option Nat := do
  let hi ← hexDigitVal c1
  let lo ← hexDigitVal c2
  pure (16 * hi + lo)

/-- `hex_to_rgb(hex_color)`: strip leading `#` characters and parse the three
two-digit hexadecimal components at indices `(0, 2, 4)`; Python raises on a
string shorter than six hex digits, modelled as `none`. -/
def hex_to_rgb (hex_color : String) : Option (Nat × Nat × Nat) :=
  match hex_color.toList.dropWhile (· = '#') with
  | c0 :: c1 :: c2 :: c3 :: c4 :: c5 :: _ => do
      let r ← hexPair c0 c1
      let g ← hexPair c2 c3
      let b ← hexPair c4 c5
      pure (r, g, b)
  | _ => none

/-- `white_threshold = 200`: the fixed brightness threshold. -/
def white_threshold : Nat := 200

/-- `is_white`: all three colour channels strictly above the brightness
threshold (the white tree glyph). -/
def is_white (p : RGBA) : Bool :=
  decide (white_threshold < p.r) && decide (white_threshold < p.g)
    && decide (white_threshold < p.b)

/-- `is_transparent`: alpha strictly below 128 (rounded-corner regions). -/
def is_transparent (p : RGBA) : Bool := decide (p.a < 128)

/-- `is_background`: neither white nor transparent. -/
def is_background (p : RGBA) : Bool := !(is_white p) && !(is_transparent p)

/-- The per-pixel effect of the three masked numpy assignments
`data[is_background, c] = new_c`: background pixels get the new RGB and keep
their alpha; all other pixels are untouched. -/
def recolorPixel (nr ng nb : Nat) (p : RGBA) : RGBA :=
  if is_background p then ⟨nr, ng, nb, p.a⟩ else p

/-- `recolor_icon(source, target, new_bg_color)`: replace the RGB of every
background-classified pixel with the parsed theme colour, keeping dimensions
and every other channel; `none` models Python raising on an unparsable colour
string. -/
def recolor_icon (img : Img) (new_bg_color : String) : Option Img :=
  match hex_to_rgb new_bg_color with
  | none => none
  | some (nr, ng, nb) =>
      some { img with pix := fun x y => recolorPixel nr ng nb (img.pix x y) }

/-- **C2.** Under any theme colour that parses to `(nr, ng, nb)`, the recolor
transform classifies each pixel by the two fixed thresholds: a pixel with all
of R, G, B above 200 is foreground and is left entirely unchanged; a pixel
with alpha below 128 is transparent and left unmodified regardless of RGB;
every other pixel is background and gets exactly the theme RGB with its alpha
preserved.  Concretely `(210,215,230,255)` is unchanged, `(90,95,230,255)`
becomes `(nr,ng,nb,255)`, and any pixel with alpha 50 is unchanged. -/
theorem recolor_pixel_classification (img : Img) (col : String) (nr ng nb : Nat) (x y : Nat)
    (hc : hex_to_rgb col = some (nr, ng, nb)) :
    ∃ out, recolor_icon img col = some out ∧
      (is_white (img.pix x y) = true → out.pix x y = img.pix x y) ∧
      ((img.pix x y).a < 128 → out.pix x y = img.pix x y) ∧
      (is_background (img.pix x y) = true →
        out.pix x y = ⟨nr, ng, nb, (img.pix x y).a⟩) ∧
      recolorPixel nr ng nb ⟨210, 215, 230, 255⟩ = ⟨210, 215, 230, 255⟩ ∧
      recolorPixel nr ng nb ⟨90, 95, 230, 255⟩ = ⟨nr, ng, nb, 255⟩ ∧
      (∀ r g b : Nat, recolorPixel nr ng nb ⟨r, g, b, 50⟩ = ⟨r, g, b, 50⟩) := by
  refine ⟨_, by rw [recolor_icon, hc], ?_, ?_, ?_, ?_, ?_, ?_⟩
  · intro hw
    simp only [recolorPixel, is_background, hw, Bool.not_true, Bool.false_and,
      Bool.false_eq_true, if_false]
  · intro ha
    have ht : is_transparent (img.pix x y) = true := by
      simp [is_transparent, ha]
    simp only [recolorPixel, is_background, ht, Bool.not_true, Bool.and_false,
      Bool.false_eq_true, if_false]
  · intro hbg
    simp only [recolorPixel, hbg, if_true]
  · simp [recolorPixel, is_background, is_white, is_transparent, white_threshold]
  · simp [recolorPixel, is_background, is_white, is_transparent, white_threshold]
  · intro r g b
    simp [recolorPixel, is_background, is_transparent]

/-- A concrete 1×1 background-classified (mid-blue, opaque) test image. -/
def bluePix : Img := Image.new 1 1 ⟨90, 95, 230, 255⟩

/-- Witness for C2: for the concrete theme string `"#5865f2"` (value
`(88, 101, 242)`) and the concrete background pixel image `bluePix`, the
recolored output pixel is exactly the theme RGB with alpha 255. -/
theorem recolor_pixel_classification_witness :
    ∃ out, recolor_icon bluePix "#5865f2" = some out ∧ out.pix 0 0 = ⟨88, 101, 242, 255⟩ := by
  obtain ⟨out, hout, _, _, hbg, _⟩ :=
    recolor_pixel_classification bluePix "#5865f2" 88 101 242 0 0 (by decide)
  exact ⟨out, hout, hbg (by decide)⟩

/-- **C9.** Frame property of the recolor transform: dimensions are preserved,
the alpha channel of every pixel (background included) is unchanged, every
pixel not classified background is entirely unmodified in all four channels,
and the only write performed is to the RGB of background-classified pixels. -/
theorem recolor_frame (img : Img) (col : String) (out : Img) (x y : Nat)
    (h : recolor_icon img col = some out) :
    out.width = img.width ∧ out.height = img.height ∧
    (out.pix x y).a = (img.pix x y).a ∧
    (is_background (img.pix x y) = false → out.pix x y = img.pix x y) ∧
    (is_background (img.pix x y) = true → ∃ nr ng nb,
      hex_to_rgb col = some (nr, ng, nb) ∧
      out.pix x y = ⟨nr, ng, nb, (img.pix x y).a⟩) := by
  unfold recolor_icon at h
  cases hc : hex_to_rgb col with
  | none => rw [hc] at h; exact absurd h (by simp)
  | some v =>
    obtain ⟨nr, ng, nb⟩ := v
    rw [hc] at h
    injection h with h
    subst h
    refine ⟨rfl, rfl, ?_, ?_, ?_⟩
    · by_cases hbg : is_background (img.pix x y) <;>
        simp only [recolorPixel, hbg, if_true, Bool.false_eq_true, if_false]
    · intro hbg
      simp only [recolorPixel, hbg, Bool.false_eq_true, if_false]
    · intro hbg
      exact ⟨nr, ng, nb, rfl, by simp only [recolorPixel, hbg, if_true]⟩

/-- Witness for C9 at the concrete image `bluePix` and theme `"#22c55e"`:
the recolored pixel keeps alpha 255. -/
theorem recolor_frame_witness :
    (Img.mk 1 1 (fun x y => recolorPixel 34 197 94 (bluePix.pix x y))).pix 0 0 =
      ⟨34, 197, 94, 255⟩ ∧
    ((Img.mk 1 1 (fun x y => recolorPixel 34 197 94 (bluePix.pix x y))).pix 0 0).a =
      (bluePix.pix 0 0).a := by
  have h := recolor_frame bluePix "#22c55e"
    (Img.mk 1 1 (fun x y => recolorPixel 34 197 94 (bluePix.pix x y))) 0 0 rfl
  refine ⟨?_, h.2.2.1⟩
  obtain ⟨nr, ng, nb, hc, hpix⟩ := h.2.2.2.2 (by decide)
  have : (nr, ng, nb) = ((34 : Nat), (197 : Nat), (94 : Nat)) := by
    have hc' : hex_to_rgb "#22c55e" = some (34, 197, 94) := by decide
    rw [hc'] at hc
    exact (Option.some_injective _ hc).symm
  rw [hpix]
  rw [Prod.mk.injEq, Prod.mk.injEq] at this
  rw [this.1, this.2.1, this.2.2]
  rfl

/-! ## `build/prepare_and_generate_icons.py` — the Iconset Completer -/

/-- The fixed required (filename, pixel size) table, named `REQUIRED_SIZES` in
`prepare_and_generate_icons.py` and `ICON_SIZES` (identical contents) in
`add_icon_padding.py` and `generate_themed_icons.py`. -/
def REQUIRED_SIZES : List (String × Nat) := [
  ("icon_16x16.png", 16),
  ("icon_16x16@2x.png", 32),
  ("icon_32x32.png", 32),
  ("icon_32x32@2x.png", 64),
  ("icon_128x128.png", 128),
  ("icon_128x128@2x.png", 256),
  ("icon_256x256.png", 256),
  ("icon_256x256@2x.png", 512),
  ("icon_512x512.png", 512),
  ("icon_512x512@2x.png", 1024)]

/-- The iconset directory modelled as an association list from filename to the
image stored in that file (`none` = file does not exist). -/
def fsLookup (fs : List (String × Img)) (name : String) : Option Img :=
  List.lookup name fs

/-- Stable insertion into a descending-by-size list: a new entry goes after
every existing entry of equal or larger size. -/
def insertDescBySize (a : String × Nat) : List (String × Nat) → List (String × Nat)
  | [] => [a]
  | b :: bs => if b.2 < a.2 then a :: b :: bs else b :: insertDescBySize a bs

/-- Python's stable `sorted(REQUIRED_SIZES, key=lambda x: -x[1])`: the table
sorted by decreasing size, ties kept in original order, realised as a stable
insertion sort. -/
def sortedBySizeDesc (l : List (String × Nat)) : List (String × Nat) :=
  l.foldl (fun acc a => insertDescBySize a acc) []

/-- The source-selection loop of `prepare_iconset`: walk the table in
decreasing-size order carrying `source_size` (initially 0); at each existing
file, open it and, if its width is at least `source_size`, select it (the
`break`), else keep scanning. -/
def findSourceLoop (fs : List (String × Img)) :
    List (String × Nat) → Nat → Option (Img × Nat)
  | [], _ => none
  | (fn, _) :: rest, source_size =>
    match fsLookup fs fn with
    | some img =>
        if source_size ≤ img.width then some (img, img.width)
        else findSourceLoop fs rest source_size
    | none => findSourceLoop fs rest source_size

/-- The outcome of `prepare_iconset()`: its boolean return value, the files it
(re)generates, and the sizes for which it prints the upscaling warning. -/
structure PrepareResult where
  success : Bool
  outputs : List (String × Img)
  warnings : List Nat

/-- `prepare_iconset()`: select the first existing file of the
decreasing-size-sorted table as the single source (returning `False` if none
exists), then regenerate every required file by resizing that source to the
required size — both the `size <= source_size` and the upscaling branch call
the same LANCZOS resize, the latter additionally printing a warning. -/
def prepare_iconset (fs : List (String × Img)) : PrepareResult :=
  match findSourceLoop fs (sortedBySizeDesc REQUIRED_SIZES) 0 with
  | none => ⟨false, [], []⟩
  | some (src, source_size) =>
      ⟨true,
       REQUIRED_SIZES.map (fun p => (p.1, Image.resize src p.2 p.2)),
       (REQUIRED_SIZES.filter (fun p => decide (source_size < p.2))).map (fun p => p.2)⟩

/-- **C4.** Given a directory containing only a 512×512 image stored under
`icon_512x512.png`, the iconset completer succeeds, produces output files for
all ten required (filename, size) pairs with each output having exactly the
target pixel dimensions of its pair, and warns exactly for the one target
size (1024) strictly exceeding the 512 source — while still producing that
file. -/
theorem iconset_completer_from_512 (pixf : Nat → Nat → RGBA) :
    (prepare_iconset [("icon_512x512.png", Img.mk 512 512 pixf)]).success = true ∧
    (prepare_iconset [("icon_512x512.png", Img.mk 512 512 pixf)]).outputs.map
        (fun p => (p.1, p.2.width, p.2.height))
      = REQUIRED_SIZES.map (fun p => (p.1, p.2, p.2)) ∧
    (prepare_iconset [("icon_512x512.png", Img.mk 512 512 pixf)]).warnings = [1024] ∧
    REQUIRED_SIZES.length = 10 :=
  ⟨rfl, rfl, rfl, rfl⟩

theorem findSourceLoop_eq_none_iff (fs : List (String × Img)) (l : List (String × Nat)) :
    findSourceLoop fs l 0 = none ↔ ∀ p ∈ l, fsLookup fs p.1 = none := by
  induction l with
  | nil => simp [findSourceLoop]
  | cons hd tl ih =>
    obtain ⟨fn, sz⟩ := hd
    simp only [findSourceLoop, List.mem_cons]
    split
    · next img hlk =>
        rw [if_pos (Nat.zero_le img.width)]
        constructor
        · intro hcontra; exact absurd hcontra (by simp)
        · intro hall
          exact absurd hlk (by rw [hall (fn, sz) (Or.inl rfl)]; simp)
    · next hlk =>
        rw [ih]
        constructor
        · intro hall p hp
          rcases hp with hp | hp
          · subst hp; exact hlk
          · exact hall p hp
        · intro hall p hp
          exact hall p (Or.inr hp)

theorem findSourceLoop_eq_findSome (fs : List (String × Img)) (l : List (String × Nat)) :
    findSourceLoop fs l 0 =
      l.findSome? (fun p => (fsLookup fs p.1).map (fun img => (img, img.width))) := by
  induction l with
  | nil => rfl
  | cons hd tl ih =>
    obtain ⟨fn, sz⟩ := hd
    simp only [findSourceLoop, List.findSome?]
    split
    · next img hlk => simp [hlk, if_pos (Nat.zero_le img.width)]
    · next hlk => simp only [hlk, Option.map_none]; exact ih

theorem sortedRequired_perm : List.Perm (sortedBySizeDesc REQUIRED_SIZES) REQUIRED_SIZES := by
  have h : sortedBySizeDesc REQUIRED_SIZES = [
      ("icon_512x512@2x.png", 1024),
      ("icon_256x256@2x.png", 512),
      ("icon_512x512.png", 512),
      ("icon_128x128@2x.png", 256),
      ("icon_256x256.png", 256),
      ("icon_128x128.png", 128),
      ("icon_32x32@2x.png", 64),
      ("icon_16x16@2x.png", 32),
      ("icon_32x32.png", 32),
      ("icon_16x16.png", 16)] := by decide
  rw [h]
  decide

/-- **C5.** For every directory contents: the completer scans the required
table in decreasing-size order and selects as its single source the first
entry whose file exists (the `source_size ≥ 0` guard on the first hit is
vacuous, so the loop equals a plain first-match scan); it then regenerates
every required file from that one source; and it reports failure by returning
`false` — not by throwing — exactly when none of the required files exists. -/
theorem iconset_completer_source_selection (fs : List (String × Img)) :
    ((prepare_iconset fs).success = false ↔
      ∀ p ∈ REQUIRED_SIZES, fsLookup fs p.1 = none) ∧
    findSourceLoop fs (sortedBySizeDesc REQUIRED_SIZES) 0 =
      (sortedBySizeDesc REQUIRED_SIZES).findSome?
        (fun p => (fsLookup fs p.1).map (fun img => (img, img.width))) ∧
    (∀ src ssz, findSourceLoop fs (sortedBySizeDesc REQUIRED_SIZES) 0 = some (src, ssz) →
      (prepare_iconset fs).outputs =
        REQUIRED_SIZES.map (fun p => (p.1, Image.resize src p.2 p.2))) := by
  refine ⟨?_, findSourceLoop_eq_findSome fs _, ?_⟩
  · unfold prepare_iconset
    cases hfind : findSourceLoop fs (sortedBySizeDesc REQUIRED_SIZES) 0 with
    | none =>
      simp only [true_iff]
      rw [findSourceLoop_eq_none_iff] at hfind
      intro p hp
      exact hfind p (sortedRequired_perm.mem_iff.mpr hp)
    | some v =>
      obtain ⟨src, ssz⟩ := v
      simp only [Bool.true_eq_false, false_iff]
      intro hall
      rw [show (findSourceLoop fs (sortedBySizeDesc REQUIRED_SIZES) 0 = none) from
        (findSourceLoop_eq_none_iff fs _).mpr
          (fun p hp => hall p (sortedRequired_perm.mem_iff.mp hp))] at hfind
      exact absurd hfind (by simp)
  · intro src ssz hfind
    unfold prepare_iconset
    rw [hfind]

/-- Witness for C5 on the empty directory: no required file exists, and the
completer reports failure with `success = false`. -/
theorem iconset_completer_source_selection_witness :
    (prepare_iconset []).success = false :=
  (iconset_completer_source_selection []).1.mpr (fun _ _ => rfl)

/-! ## `scripts/generate-icon.py` — the Icon Synthesizer -/

/-- `THEME_COLOR = (88, 101, 242)` (`#5865f2`, midnight), used with alpha 255. -/
def THEME_COLOR : RGBA := ⟨88, 101, 242, 255⟩

/-- `white = (255, 255, 255, 255)`, the glyph colour. -/
def whiteColor : RGBA := ⟨255, 255, 255, 255⟩

/-- The coordinate map `s(val)` of `create_arbor_icon`: the SVG transform
`(val - 256) * 0.75 + 256` followed by the canvas scale `size / 512` and the
truncation `int(...)`, computed exactly over the integers as
`trunc(((val - 256) * 3 + 1024) * size / 2048)`; the floating-point products
in the script are exact dyadic values at these magnitudes, so this is the
value Python computes. -/
def sCoord (size : Nat) (val : Int) : Int :=
  Int.tdiv (((val - 256) * 3 + 1024) * (size : Int)) 2048

/-- The stroke-width map `sw(val)`: `max(1, int(val * 0.75 * size / 512))`. -/
def swCoord (size : Nat) (val : Int) : Int :=
  max 1 (Int.tdiv (val * 3 * (size : Int)) 2048)

/-- Modelled from the spec: the PIL `ImageDraw` rasterisation primitives
(`polygon`, `line`, `ellipse`, `rounded_rectangle`) and `Image.composite` are
imaging-library behaviour not present in this repository.  The specification
relies only on every drawing call being a deterministic function of the
requested size that leaves the canvas dimensions unchanged ("all coordinates
are deterministic functions of the requested size — no randomness"), so each
primitive is modelled as deterministically painting the bounding region of
its integer coordinates onto the same-dimension canvas. -/
def paintBox (img : Img) (x0 y0 x1 y1 : Int) (c : RGBA) : Img :=
  { img with pix := fun x y =>
      if x0 ≤ (x : Int) ∧ (x : Int) ≤ x1 ∧ y0 ≤ (y : Int) ∧ (y : Int) ≤ y1
      then c else img.pix x y }

/-- Bounding box `(xmin, ymin, xmax, ymax)` of a point list. -/
def bbox (pts : List (Int × Int)) : Int × Int × Int × Int :=
  match pts with
  | [] => (0, 0, 0, 0)
  | p :: ps => ps.foldl
      (fun acc q => (min acc.1 q.1, min acc.2.1 q.2, max acc.2.2.1 q.1, max acc.2.2.2 q.2))
      (p.1, p.2, p.1, p.2)

/-- `draw.polygon(points, fill=c)` (modelled: paints the points' bounding region). -/
def drawPolygon (img : Img) (pts : List (Int × Int)) (c : RGBA) : Img :=
  paintBox img (bbox pts).1 (bbox pts).2.1 (bbox pts).2.2.1 (bbox pts).2.2.2 c

/-- `draw.line(points, fill=c, width=w)` (modelled: paints the points'
bounding region widened by half the stroke width). -/
def drawLine (img : Img) (pts : List (Int × Int)) (w : Int) (c : RGBA) : Img :=
  paintBox img ((bbox pts).1 - w / 2) ((bbox pts).2.1 - w / 2)
    ((bbox pts).2.2.1 + w / 2) ((bbox pts).2.2.2 + w / 2) c

/-- `draw.ellipse([(x0, y0), (x1, y1)], fill=c)` (modelled: paints the
bounding region). -/
def drawEllipse (img : Img) (x0 y0 x1 y1 : Int) (c : RGBA) : Img :=
  paintBox img x0 y0 x1 y1 c

/-- `draw_ellipse_rotated(draw, (cx, cy), rx, ry, angle, fill)`: a 36-point
polygon approximating a rotated ellipse (modelled: paints the region bounded
by the larger radius around the centre; the rotation angle selects points
inside that region). -/
def draw_ellipse_rotated (img : Img) (cx cy rx ry _angle : Int) (c : RGBA) : Img :=
  paintBox img (cx - max rx ry) (cy - max rx ry) (cx + max rx ry) (cy + max rx ry) c

/-- `mask_draw.rounded_rectangle([(0,0), (size-1, size-1)], corner_radius,
fill=255)` on a black `L` canvas: alpha 255 inside the rounded rectangle
(the two full-width/full-height core bands plus the four corner disks),
0 outside. -/
def roundedRectMask (size : Nat) (radius : Int) : Nat → Nat → Nat := fun x y =>
  let xi : Int := (x : Int)
  let yi : Int := (y : Int)
  let e : Int := (size : Int) - 1
  let inCore := (radius ≤ xi ∧ xi ≤ e - radius ∧ 0 ≤ yi ∧ yi ≤ e) ∨
                (radius ≤ yi ∧ yi ≤ e - radius ∧ 0 ≤ xi ∧ xi ≤ e)
  let nearCorner := ∃ p ∈ [(radius, radius), (e - radius, radius),
                           (radius, e - radius), (e - radius, e - radius)],
      (xi - p.1) ^ 2 + (yi - p.2) ^ 2 ≤ radius ^ 2
  if inCore ∨ nearCorner then 255 else 0

/-- `Image.composite(image1, image2, mask)`: per-pixel blend taking `image1`
where the mask is 255 and `image2` where it is 0. -/
def Image.composite (img1 img2 : Img) (mask : Nat → Nat → Nat) : Img :=
  { width := img1.width, height := img1.height,
    pix := fun x y =>
      let m := mask x y
      let p1 := img1.pix x y
      let p2 := img2.pix x y
      ⟨blendChannel p2.r p1.r m, blendChannel p2.g p1.g m,
       blendChannel p2.b p1.b m, blendChannel p2.a p1.a m⟩ }

/-- `branch_levels`: `(y_center, x_spread, droop, width)` rows. -/
def branch_levels : List (Int × Int × Int × Int) := [
  (340, 96, 20, 8), (300, 116, 10, 7), (260, 136, 0, 6),
  (220, 126, -10, 5), (180, 106, -25, 4), (140, 86, -30, 3)]

/-- `leaf_data`: `(cx, cy, rx, ry, angle)` rows. -/
def leaf_data : List (Int × Int × Int × Int × Int) := [
  (160, 355, 12, 8, -30), (180, 340, 10, 6, -20),
  (352, 355, 12, 8, 30), (332, 340, 10, 6, 20),
  (140, 305, 14, 9, -25), (165, 290, 11, 7, -15),
  (372, 305, 14, 9, 25), (347, 290, 11, 7, 15),
  (120, 255, 15, 10, -20), (150, 242, 12, 8, -10),
  (392, 255, 15, 10, 20), (362, 242, 12, 8, 10),
  (130, 205, 14, 9, -15), (160, 192, 11, 7, -5),
  (382, 205, 14, 9, 15), (352, 192, 11, 7, 5),
  (150, 150, 13, 8, -10), (180, 155, 10, 6, 0),
  (362, 150, 13, 8, 10), (332, 155, 10, 6, 0),
  (170, 105, 12, 7, -5), (200, 95, 9, 5, 5),
  (342, 105, 12, 7, 5), (312, 95, 9, 5, -5)]

/-- One iteration of the branch loop: the left and right `draw.line` calls for
one `(y, spread, droop, width)` row. -/
def drawBranchLevel (size : Nat) (img : Img) (lvl : Int × Int × Int × Int) : Img :=
  let s := sCoord size
  let sw := swCoord size
  let y := lvl.1
  let spread := lvl.2.1
  let droop := lvl.2.2.1
  let w := lvl.2.2.2
  let left := drawLine img
    [(s 256, s y), (s (256 - spread / 2), s (y - 20 + droop)), (s (256 - spread), s (y + droop))]
    (sw w) whiteColor
  drawLine left
    [(s 256, s y), (s (256 + spread / 2), s (y - 20 + droop)), (s (256 + spread), s (y + droop))]
    (sw w) whiteColor

/-- One iteration of the leaf loop: `draw_ellipse_rotated` at the scaled
centre with scaled diameters. -/
def drawLeaf (size : Nat) (img : Img) (lf : Int × Int × Int × Int × Int) : Img :=
  draw_ellipse_rotated img (sCoord size lf.1) (sCoord size lf.2.1)
    (swCoord size (lf.2.2.1 * 2)) (swCoord size (lf.2.2.2.1 * 2)) lf.2.2.2.2 whiteColor

/-- `create_arbor_icon(size, output_path)`: theme-coloured canvas, white
trunk, root flares, lower trunk, six branch levels, crown ellipse and 24
leaves, composited against a transparent canvas under the rounded-rectangle
mask of radius `int(size * 0.22)`. -/
def create_arbor_icon (size : Nat) : Img :=
  let img0 := Image.new size size THEME_COLOR
  let s := sCoord size
  let corner_radius : Int := ((size * 22 / 100 : Nat) : Int)
  let trunk := drawPolygon img0
    [(s 248, s 480), (s 248, s 320), (s 264, s 320), (s 264, s 480)] whiteColor
  let rootL := drawPolygon trunk
    [(s 230, s 480), (s 248, s 450), (s 248, s 480)] whiteColor
  let rootR := drawPolygon rootL
    [(s 264, s 480), (s 264, s 450), (s 282, s 480)] whiteColor
  let lower := drawPolygon rootR
    [(s 244, s 380), (s 244, s 320), (s 256, s 300),
     (s 268, s 320), (s 268, s 380), (s 256, s 395)] whiteColor
  let branches := branch_levels.foldl (drawBranchLevel size) lower
  let crown := drawEllipse branches (s 246) (s 55) (s 266) (s 105) whiteColor
  let leaves := leaf_data.foldl (drawLeaf size) crown
  Image.composite leaves (Image.new size size ⟨0, 0, 0, 0⟩)
    (roundedRectMask size corner_radius)

theorem foldl_dims {α : Type} (f : Img → α → Img)
    (hf : ∀ i a, (f i a).width = i.width ∧ (f i a).height = i.height) :
    ∀ (l : List α) (i : Img), (l.foldl f i).width = i.width ∧ (l.foldl f i).height = i.height := by
  intro l
  induction l with
  | nil => intro i; exact ⟨rfl, rfl⟩
  | cons a l ih =>
    intro i
    rw [List.foldl_cons]
    exact ⟨((ih (f i a)).1).trans (hf i a).1, ((ih (f i a)).2).trans (hf i a).2⟩

/-- **C7.** For every supported target size from 16 up to 1024, the icon
synthesizer produces an (RGBA-modelled) image whose width and height both
equal exactly the requested size. -/
theorem synthesizer_exact_dims (size : Nat) (h16 : 16 ≤ size) (h1024 : size ≤ 1024) :
    (create_arbor_icon size).width = size ∧ (create_arbor_icon size).height = size := by
  have hbrw : ∀ i, (branch_levels.foldl (drawBranchLevel size) i).width = i.width :=
    fun i => (foldl_dims (drawBranchLevel size) (fun _ _ => ⟨rfl, rfl⟩) branch_levels i).1
  have hbrh : ∀ i, (branch_levels.foldl (drawBranchLevel size) i).height = i.height :=
    fun i => (foldl_dims (drawBranchLevel size) (fun _ _ => ⟨rfl, rfl⟩) branch_levels i).2
  have hlfw : ∀ i, (leaf_data.foldl (drawLeaf size) i).width = i.width :=
    fun i => (foldl_dims (drawLeaf size) (fun _ _ => ⟨rfl, rfl⟩) leaf_data i).1
  have hlfh : ∀ i, (leaf_data.foldl (drawLeaf size) i).height = i.height :=
    fun i => (foldl_dims (drawLeaf size) (fun _ _ => ⟨rfl, rfl⟩) leaf_data i).2
  have hcw : ∀ (a b : Img) (m : Nat → Nat → Nat), (Image.composite a b m).width = a.width :=
    fun _ _ _ => rfl
  have hch : ∀ (a b : Img) (m : Nat → Nat → Nat), (Image.composite a b m).height = a.height :=
    fun _ _ _ => rfl
  have hew : ∀ (i : Img) x0 y0 x1 y1 c, (drawEllipse i x0 y0 x1 y1 c).width = i.width :=
    fun _ _ _ _ _ _ => rfl
  have heh : ∀ (i : Img) x0 y0 x1 y1 c, (drawEllipse i x0 y0 x1 y1 c).height = i.height :=
    fun _ _ _ _ _ _ => rfl
  have hpw : ∀ (i : Img) pts c, (drawPolygon i pts c).width = i.width := fun _ _ _ => rfl
  have hph : ∀ (i : Img) pts c, (drawPolygon i pts c).height = i.height := fun _ _ _ => rfl
  unfold create_arbor_icon
  constructor
  · rw [hcw, hlfw, hew, hbrw, hpw, hpw, hpw, hpw]
    rfl
  · rw [hch, hlfh, heh, hbrh, hph, hph, hph, hph]
    rfl

/-- Witness for C7 at the concrete supported size 512. -/
theorem synthesizer_exact_dims_witness :
    (create_arbor_icon 512).width = 512 ∧ (create_arbor_icon 512).height = 512 :=
  synthesizer_exact_dims 512 (by norm_num) (by norm_num)

/-- **C8.** The icon synthesizer is deterministic: two invocations of the
glyph generation with the same requested size produce pixel-for-pixel
identical images — in the embedding `create_arbor_icon` is a pure function of
the requested size (every drawn coordinate is `sCoord`/`swCoord` of the size,
with no randomness), so equal sizes give equal images. -/
theorem synthesizer_deterministic (s₁ s₂ : Nat) (h : s₁ = s₂) :
    (∀ x y, (create_arbor_icon s₁).pix x y = (create_arbor_icon s₂).pix x y) ∧
    create_arbor_icon s₁ = create_arbor_icon s₂ := by
  subst h
  exact ⟨fun _ _ => rfl, rfl⟩

/-- Witness for C8: two runs at the concrete size 64 agree at pixel `(0, 0)`. -/
theorem synthesizer_deterministic_witness :
    (create_arbor_icon 64).pix 0 0 = (create_arbor_icon 64).pix 0 0 :=
  (synthesizer_deterministic 64 64 rfl).1 0 0

/-! ## The external-tool boundary: `convert_iconset_to_icns` and the two mains -/

/-- The fixed theme table `THEMES` (name to 6-hex-digit colour, iterated in
insertion order). -/
def THEMES : List (String × String) := [
  ("midnight", "#5865f2"),
  ("aurora-glass", "#8b5cf6"),
  ("linear-minimal", "#3b82f6"),
  ("forest-deep", "#22c55e"),
  ("neon-cyber", "#f472b6"),
  ("golden-hour", "#d4a574"),
  ("abyssal", "#00d4aa"),
  ("celestial", "#ff6eb4"),
  ("ember", "#ff6b35")]

/-- `create_themed_iconset(theme_name, theme_color, base, out)`: recolor each
required size that exists in the base iconset into the theme's directory
(a missing source file prints a warning and produces no output, modelled as
`none`). -/
def create_themed_iconset (fs : List (String × Img)) (theme_color : String) :
    List (String × Option Img) :=
  REQUIRED_SIZES.map (fun p =>
    (p.1, (fsLookup fs p.1).bind (fun img => recolor_icon img theme_color)))

/-- Modelled from the spec: the external `iconutil` packaging tool invoked by
`convert_iconset_to_icns` is outside this repository ("external-tool failure
— caught around the single subprocess call"), so its per-invocation outcome
is supplied by an oracle on the iconset path.  A failing call raises
`subprocess.CalledProcessError`, which the function catches, reports as a
printed diagnostic and turns into the return value `None`; a successful call
returns the `.icns` path. -/
def convert_iconset_to_icns (iconutilOk : String → Bool) (iconset_path : String) :
    Option String :=
  if iconutilOk iconset_path then some (String.replace iconset_path ".iconset" ".icns")
  else none

/-- The theme loop of `generate_themed_icons.main()`: for each theme build the
recolored iconset, then attempt the external conversion; the caught
conversion failure is recorded in the third component and the loop continues
with the next theme. -/
def themedMain (iconutilOk : String → Bool) (fs : List (String × Img)) :
    List (String × List (String × Option Img) × Option String) :=
  THEMES.map (fun p =>
    (p.1, create_themed_iconset fs p.2,
     convert_iconset_to_icns iconutilOk ("icon-" ++ p.1 ++ ".iconset")))

/-- The `icon_specs` table of `generate-icon.py` (size, filename). -/
def icon_specs : List (Nat × String) := [
  (16, "icon_16x16.png"), (32, "icon_16x16@2x.png"), (32, "icon_32x32.png"),
  (64, "icon_32x32@2x.png"), (128, "icon_128x128.png"), (256, "icon_128x128@2x.png"),
  (256, "icon_256x256.png"), (512, "icon_256x256@2x.png"), (512, "icon_512x512.png"),
  (1024, "icon_512x512@2x.png")]

/-- `ico_sizes`, the resolutions assembled into the Windows ICO. -/
def ico_sizes : List Nat := [16, 32, 48, 64, 128, 256]

/-- The artifacts of one run of `generate-icon.py main()`. -/
structure GenIconRun where
  iconsetFiles : List (String × Img)
  icnsCreated : Bool
  mainPng : Img
  icoImages : List Img

/-- `generate-icon.py main()`: generate the ten iconset files, invoke
`iconutil` without `check=True` — so a failure surfaces only as a nonzero
`returncode` that is printed, never as an exception — then unconditionally
export the 512×512 `icon.png` and assemble the ICO from `ico_sizes`.  The
external tool's exit code is supplied as a parameter. -/
def generateIconMain (iconutilReturncode : Int) : GenIconRun :=
  { iconsetFiles := icon_specs.map (fun p => (p.2, create_arbor_icon p.1)),
    icnsCreated := iconutilReturncode == 0,
    mainPng := create_arbor_icon 512,
    icoImages := ico_sizes.map create_arbor_icon }

/-- **C6.** External-tool failure is isolated: for every pattern of `iconutil`
outcomes, the Theme Recolorer's loop still visits every theme (the caught
failure is confined to the conversion result of its own iteration, and the
recolored outputs of all themes are identical to those of an all-success
run), and for every nonzero `iconutil` exit code the Icon Synthesizer's
`main` still produces its 512×512 PNG export and its full ICO assembly. -/
theorem external_tool_failure_isolated (iconutilOk : String → Bool)
    (fs : List (String × Img)) (rc : Int) :
    (themedMain iconutilOk fs).length = THEMES.length ∧
    (themedMain iconutilOk fs).map (fun t => (t.1, t.2.1))
      = (themedMain (fun _ => true) fs).map (fun t => (t.1, t.2.1)) ∧
    (generateIconMain rc).mainPng = create_arbor_icon 512 ∧
    (generateIconMain rc).icoImages.length = ico_sizes.length ∧
    (generateIconMain rc).iconsetFiles = (generateIconMain 0).iconsetFiles ∧
    (generateIconMain rc).icoImages = (generateIconMain 0).icoImages := by
  refine ⟨?_, ?_, rfl, ?_, rfl, rfl⟩
  · simp [themedMain]
  · simp only [themedMain, List.map_map]
    rfl
  · simp [generateIconMain, ico_sizes]
